import Mathlib

/-!
# Verification of the DevVerse blog articles-list filtering and search state

Shallow embedding of the two client components `ArticlesList.tsx` and
`HomePageContent.tsx`: the topic filter, the debounced text search, the
initialization of both controllers from the location's query parameters, the
location-sync effects, and the not-found navigation effect.  Pure fragments of
the components become Lean functions; the React render/effect loop at mount is
embedded as an explicit driver that runs the effect bodies in declaration
order and re-runs the ones whose dependencies changed, exactly as the host
does for these components.
-/

set_option autoImplicit false

namespace DevVerse

/-- The `Article` record shared by both components: `slug`, `title`, optional
`description`, and a list of topic tag strings. -/
structure Article where
  slug : String
  title : String
  description : Option String
  topics : List String
  deriving DecidableEq, Repr

/-! ## Topic filtering (`ArticlesList.tsx`, `filteredArticles`, lines 37–42) -/

/-- Embeds `filteredArticles`:
`if (selectedTopics.length === 0) return articles;
 return articles.filter((article) =>
   selectedTopics.every((topic) => article.topics.includes(topic)));`. -/
def filteredArticles (articles : List Article) (selectedTopics : List String) :
    List Article :=
  if selectedTopics.length = 0 then articles
  else articles.filter (fun article =>
    selectedTopics.all (fun topic => article.topics.contains topic))

/-! ## Case-insensitive substring search (`HomePageContent.tsx`, lines 57–73) -/

/-- `strStartsWith s pat` embeds "the character list `s` starts with `pat`";
auxiliary for JavaScript's `String.prototype.includes`. -/
def strStartsWith : List Char → List Char → Bool
  | _, [] => true
  | [], _ :: _ => false
  | a :: as, b :: bs => a == b && strStartsWith as bs

/-- `charsIncl pat s` : `pat` occurs as a contiguous run inside `s`. -/
def charsIncl (pat : List Char) : List Char → Bool
  | [] => pat.isEmpty
  | c :: rest => strStartsWith (c :: rest) pat || charsIncl pat rest

/-- Embeds JavaScript `s.includes(pat)` (contiguous substring test). -/
def strIncludes (s pat : String) : Bool :=
  charsIncl pat.data s.data

/-- Embeds JavaScript `s.toLowerCase()` as a per-character lowering. -/
def strToLower (s : String) : String :=
  String.mk (s.data.map Char.toLower)

/-- Embeds the predicate inside `handleSearch`'s filter:
`article.title.toLowerCase().includes(term.toLowerCase()) ||
 (article.description &&
  article.description.toLowerCase().includes(term.toLowerCase()))`
(a missing description makes the second disjunct false). -/
def matchesSearch (article : Article) (term : String) : Bool :=
  strIncludes (strToLower article.title) (strToLower term) ||
    (match article.description with
     | some d => strIncludes (strToLower d) (strToLower term)
     | none => false)

/-- Embeds the body of the debounced callback in `handleSearch`:
`if (!term) { setFilteredArticles(articles); return; }` (a JavaScript string
is falsy exactly when empty) followed by the filter above.  Returns the
collection stored into `filteredArticles`. -/
def handleSearchFilter (articles : List Article) (term : String) :
    List Article :=
  if term = "" then articles
  else articles.filter (fun article => matchesSearch article term)

/-! ### Basic lemmas about the search predicate -/

theorem strStartsWith_nil (s : List Char) : strStartsWith s [] = true := by
  cases s <;> rfl

theorem charsIncl_nil (s : List Char) : charsIncl [] s = true := by
  cases s with
  | nil => rfl
  | cons c rest => simp [charsIncl, strStartsWith_nil]

theorem strIncludes_empty (s : String) : strIncludes s "" = true := by
  simp [strIncludes, charsIncl_nil]

theorem matchesSearch_empty (article : Article) :
    matchesSearch article "" = true := by
  unfold matchesSearch
  rw [Bool.or_eq_true]
  left
  have h : strToLower "" = "" := rfl
  rw [h]
  exact strIncludes_empty _

/-- With the empty query every article satisfies the search predicate, so the
filter branch also returns the whole collection. -/
theorem filter_matchesSearch_empty (articles : List Article) :
    articles.filter (fun article => matchesSearch article "") = articles := by
  induction articles with
  | nil => rfl
  | cons a rest ih => simp [List.filter, matchesSearch_empty, ih]

/-! ## Topic selection state (`ArticlesList.tsx`) -/

/-- Embeds the functional updater inside `toggleTopic` (lines 78–87):
`prev.includes(topic) ? prev.filter((t) => t !== topic) : [...prev, topic]`.
(The surrounding handler also resets `visibleCount` to 10; the mount driver
below carries that field.) -/
def toggleTopic (prev : List String) (topic : String) : List String :=
  if prev.contains topic then prev.filter (fun t => t ≠ topic)
  else prev ++ [topic]

/-- Embeds JavaScript `s.split(",")`: cut the character sequence at every
comma, keeping empty segments. -/
def splitCommaAux : List Char → List Char → List String
  | [], acc => [String.mk acc.reverse]
  | c :: rest, acc =>
    if c = ',' then String.mk acc.reverse :: splitCommaAux rest []
    else splitCommaAux rest (c :: acc)

/-- Embeds `param.split(",")` in the initialization effect (line 98). -/
def splitComma (s : String) : List String :=
  splitCommaAux s.data []

/-- The component state of `ArticlesList` that the claims depend on:
`selectedTopics`, `visibleCount`, `visibleTopicsCount`, `initialized`
(the `showOnlyMessage` flag only folds the help text and is omitted). -/
structure ListState where
  selectedTopics : List String
  visibleCount : Nat
  visibleTopicsCount : Nat
  initDone : Bool
  deriving DecidableEq, Repr

/-- `useState` initial values (lines 23–27): empty selection, both visible
counts 10, `initialized` false. -/
def initialListState : ListState :=
  { selectedTopics := [], visibleCount := 10, visibleTopicsCount := 10,
    initDone := false }

/-- Embeds the initialization effect (lines 94–102): when not yet
initialized, read the `topics` query parameter; a non-null, non-empty value
(JavaScript truthiness of a string) is split on commas into
`selectedTopics`; then `initialized` is set.  Once initialized the effect is
a no-op. -/
def initEffect (topicsParam : Option String) (s : ListState) : ListState :=
  if s.initDone then s
  else
    let s' := match topicsParam with
      | some p => if p ≠ "" then { s with selectedTopics := splitComma p } else s
      | none => s
    { s' with initDone := true }

/-- Embeds the location-sync effect (lines 104–118): when `initialized`, it
issues exactly one `router.replace` (an in-place location write) per run;
before initialization it writes nothing.  Returns the number of location
writes the run performs. -/
def syncEffectWrites (s : ListState) : Nat :=
  if s.initDone then 1 else 0

/-- Embeds the not-found navigation effect body (lines 120–124): one
`router.push("/404")` when `initialized && articles.length > 0 &&
filteredArticles.length === 0`, else none.  Returns the number of push
requests the run performs. -/
def notFoundEffectPushes (articles : List Article) (s : ListState) : Nat :=
  if s.initDone ∧ articles.length > 0 ∧
      (filteredArticles articles s.selectedTopics).length = 0
  then 1 else 0

/-- The mount sequence of `ArticlesList` under React's effect rule: after the
first render all three effects run against the first-render state (the
initialization effect's `setState` calls take effect for the next render);
if the state changed, a second render re-runs the effects whose dependencies
changed — here the flip of `initialized` occurs in all three dependency
lists, so all three re-run — after which the initialization effect is a
no-op and no further render is caused by the component itself.  Returns the
settled state, the total number of location writes, and the total number of
not-found pushes. -/
def articlesListMount (articles : List Article) (topicsParam : Option String) :
    ListState × Nat × Nat :=
  let s0 := initialListState
  let w0 := syncEffectWrites s0
  let p0 := notFoundEffectPushes articles s0
  let s1 := initEffect topicsParam s0
  if s1 = s0 then (s0, w0, p0)
  else (s1, w0 + syncEffectWrites s1, p0 + notFoundEffectPushes articles s1)

/-! ## Topic universe and rendered topic buttons (`ArticlesList.tsx`) -/

/-- `Set.add` semantics: append if not already present (JavaScript `Set`
preserves first-insertion order). -/
def addUnique (acc : List String) (t : String) : List String :=
  if acc.contains t then acc else acc ++ [t]

/-- Lexicographic code-unit order on character sequences, embedding the
default comparator of JavaScript `Array.sort()` on strings. -/
def charsLe : List Char → List Char → Bool
  | [], _ => true
  | _ :: _, [] => false
  | a :: as, b :: bs =>
    if a.toNat < b.toNat then true
    else if b.toNat < a.toNat then false
    else charsLe as bs

/-- `strLe a b` : `a` sorts no later than `b` under the default string
comparator. -/
def strLe (a b : String) : Bool :=
  charsLe a.data b.data

/-- Insertion into a sorted list; auxiliary for `Array.sort()`. -/
def insertSorted (t : String) : List String → List String
  | [] => [t]
  | x :: xs => if strLe t x then t :: x :: xs else x :: insertSorted t xs

/-- Lexicographic sort, embedding `Array.from(set).sort()`. -/
def sortStrings (l : List String) : List String :=
  l.foldr insertSorted []

/-- Embeds `allTopics` (lines 29–35): collect every topic of every article
into a set, then sort. -/
def allTopics (articles : List Article) : List String :=
  sortStrings (articles.foldl (fun acc a => a.topics.foldl addUnique acc) [])

/-- Embeds `displayedTopics = allTopics.slice(0, visibleTopicsCount)`
(line 45). -/
def displayedTopics (articles : List Article) (visibleTopicsCount : Nat) :
    List String :=
  (allTopics articles).take visibleTopicsCount

/-- Embeds `extraTopics = selectedTopics.filter((t) =>
!displayedTopics.includes(t))` (line 46). -/
def extraTopics (articles : List Article) (selectedTopics : List String)
    (visibleTopicsCount : Nat) : List String :=
  selectedTopics.filter
    (fun t => ¬ (displayedTopics articles visibleTopicsCount).contains t)

/-- Embeds `topicsToShow = [...displayedTopics, ...extraTopics]` (line 47);
one toggle button is rendered per entry (lines 155–164). -/
def topicsToShow (articles : List Article) (selectedTopics : List String)
    (visibleTopicsCount : Nat) : List String :=
  displayedTopics articles visibleTopicsCount ++
    extraTopics articles selectedTopics visibleTopicsCount

/-! ## Search state of `HomePageContent.tsx` -/

/-- Debounce delay passed to `debounce(..., 300)` (line 71), in
milliseconds. -/
def debounceDelay : Nat := 300

/-- The state of `HomePageContent` the claims depend on: `searchTerm` (the
raw term), the `filteredArticles` state handed to `ArticlesList`, and the
pending debounced task, when one is scheduled: its captured term and its
remaining delay.  Scheduling replaces any pending task (`clearTimeout`
then `setTimeout`), so at most one task is outstanding. -/
structure DebounceState where
  searchTerm : String
  filtered : List Article
  pending : Option (String × Nat)
  deriving DecidableEq, Repr

/-- A raw-term update (keystroke via `onChange`, or the clear button's
`setSearchTerm("")`, lines 170 and 188) followed by its effect (lines
75–77): `handleSearch(searchTerm)` cancels any pending debounced task and
schedules a new one carrying the new term with the full 300ms delay.
Nothing else changes synchronously: `filteredArticles` is only written by
the task body. -/
def searchInput (s : DebounceState) (q : String) : DebounceState :=
  { s with searchTerm := q, pending := some (q, debounceDelay) }

/-- The pending debounced task fires after its delay elapses: the body
(lines 58–70, embedded as `handleSearchFilter`) stores the filtered
collection, and the task is consumed. -/
def debounceFire (articles : List Article) (s : DebounceState) :
    DebounceState :=
  match s.pending with
  | some (q, _) =>
    { s with filtered := handleSearchFilter articles q, pending := none }
  | none => s

/-- The mount sequence of `HomePageContent` under React's effect rule.
First render: `searchTerm` starts `""` and `filteredArticles` starts as the
full collection (line 38).  Effects run in declaration order against the
first-render state: the mount read (lines 43–47) sets `searchTerm` to the
location's `search` parameter (absence ⇒ `""`) for the next render; the
search effect (lines 75–77) schedules the debounced task with the
first-render term `""`; the location-sync effect (lines 79–93) always calls
`router.replace` — one location write.  If the read changed `searchTerm`, a
second render re-runs the search and sync effects with the new term: the
debounced task is replaced and one more location write is issued.  Returns
the settled pre-debounce state and the total number of location writes. -/
def homePageMount (articles : List Article) (searchParam : Option String) :
    DebounceState × Nat :=
  let s0 : DebounceState :=
    { searchTerm := "", filtered := articles, pending := none }
  let term1 := searchParam.getD ""
  let s0' := { s0 with pending := some (s0.searchTerm, debounceDelay) }
  if term1 = s0.searchTerm then (s0', 1)
  else ({ s0' with searchTerm := term1, pending := some (term1, debounceDelay) },
        2)

/-! ## Example articles for concrete scenarios -/

/-- A concrete article with a single topic and no description. -/
def exDb : Article :=
  { slug := "db", title := "Database Optimization", description := none,
    topics := ["Databases"] }

/-- A concrete article with a description. -/
def exAI : Article :=
  { slug := "ai", title := "Explainable AI", description := some "A guide to XAI",
    topics := ["AI"] }

/-- The first article of the spec's search scenario. -/
def exRust : Article :=
  { slug := "rust", title := "Rust APIs", description := none,
    topics := ["Rust"] }

/-- The second article of the spec's search scenario. -/
def exOnnx : Article :=
  { slug := "onnx", title := "ONNX Guide", description := none,
    topics := ["AI"] }

/-! ## Helper lemmas -/

theorem contains_iff (l : List String) (t : String) :
    l.contains t = true ↔ t ∈ l := by
  simp [List.elem_iff]

/-! ## Claim C1 -/

/-- **C1**: for every article collection and selected-topic sequence, the
topic filter equals the subsequence of articles whose topic set contains
every selected topic (AND semantics); it is a subsequence of the input
(original order preserved), and the empty selection returns the input
collection unchanged. -/
theorem C1_topic_filter_exact (articles : List Article)
    (selectedTopics : List String) :
    filteredArticles articles selectedTopics =
      articles.filter (fun article =>
        selectedTopics.all (fun topic => article.topics.contains topic)) ∧
    (filteredArticles articles selectedTopics).Sublist articles ∧
    filteredArticles articles [] = articles := by
  refine ⟨?_, ?_, rfl⟩
  · unfold filteredArticles
    by_cases h : selectedTopics.length = 0
    · rw [if_pos h]
      rw [List.length_eq_zero] at h
      subst h
      simp
    · rw [if_neg h]
  · unfold filteredArticles
    by_cases h : selectedTopics.length = 0
    · rw [if_pos h]
    · rw [if_neg h]
      exact List.filter_sublist articles

/-! ## Claim C2 -/

/-- **C2**: for every article collection and query string, the search filter
equals the subsequence of articles whose lowered title or lowered description
contains the lowered query as a contiguous substring (case-insensitive
substring match); it is a subsequence of the input (original order
preserved), and the empty query returns the full collection unfiltered. -/
theorem C2_search_filter_exact (articles : List Article) (q : String) :
    handleSearchFilter articles q =
      articles.filter (fun article => matchesSearch article q) ∧
    (handleSearchFilter articles q).Sublist articles ∧
    handleSearchFilter articles "" = articles := by
  refine ⟨?_, ?_, rfl⟩
  · unfold handleSearchFilter
    by_cases h : q = ""
    · rw [if_pos h, h, filter_matchesSearch_empty]
    · rw [if_neg h]
  · unfold handleSearchFilter
    by_cases h : q = ""
    · rw [if_pos h]
    · rw [if_neg h]
      exact List.filter_sublist articles

/-! ## Claim C3 -/

/-- **C3**: a run of the not-found navigation effect requests the navigation
if and only if initialization has completed, the source collection is
non-empty, and the topic-filtered result is empty; in particular it never
fires on the pre-initialization state; and in the spec's scenario (non-empty
source, `selectedTopics` initialized to `["Nonexistent"]` from the query
parameter) the whole mount sequence requests it exactly once. -/
theorem C3_not_found_navigation (articles : List Article) (s : ListState) :
    (0 < notFoundEffectPushes articles s ↔
      (s.initDone = true ∧ articles ≠ [] ∧
        filteredArticles articles s.selectedTopics = [])) ∧
    notFoundEffectPushes articles initialListState = 0 ∧
    (articlesListMount [exDb] (some "Nonexistent")).2.2 = 1 := by
  refine ⟨?_, rfl, by decide⟩
  unfold notFoundEffectPushes
  split
  · rename_i h
    obtain ⟨h1, h2, h3⟩ := h
    simp only [Nat.zero_lt_one, true_iff]
    refine ⟨h1, ?_, List.length_eq_zero.mp h3⟩
    intro hnil
    rw [hnil] at h2
    exact Nat.lt_irrefl 0 h2
  · rename_i h
    simp only [Nat.lt_irrefl, false_iff]
    rintro ⟨h1, h2, h3⟩
    refine h ⟨h1, ?_, ?_⟩
    · cases articles with
      | nil => exact absurd rfl h2
      | cons a rest => exact Nat.succ_pos _
    · rw [h3]
      rfl

/-- **C3** witness: on a concrete post-initialization state with a non-empty
source and an empty filtered result, the navigation is requested. -/
theorem C3_not_found_navigation_witness :
    0 < notFoundEffectPushes [exDb]
      { selectedTopics := ["Nonexistent"], visibleCount := 10,
        visibleTopicsCount := 10, initDone := true } :=
  ((C3_not_found_navigation [exDb]
      { selectedTopics := ["Nonexistent"], visibleCount := 10,
        visibleTopicsCount := 10, initDone := true }).1).mpr
    ⟨rfl, by decide, by decide⟩

/-! ## Claim C4 -/

/-- **C4** counterexample: toggling `"a"` twice on the selection
`["a", "b"]` yields `["b", "a"]`, not the original sequence — the original
order is not restored when the toggled topic was selected but not last. -/
theorem C4_counterexample :
    toggleTopic (toggleTopic ["a", "b"] "a") "a" ≠ ["a", "b"] ∧
    toggleTopic (toggleTopic ["a", "b"] "a") "a" = ["b", "a"] := by
  constructor
  · decide
  · decide

/-- Toggling a topic that is nowhere in the selection removes nothing. -/
theorem filter_ne_of_not_mem (l : List String) (t : String) (h : t ∉ l) :
    l.filter (fun x => x ≠ t) = l := by
  rw [List.filter_eq_self]
  intro a ha
  simp only [ne_eq, decide_not, Bool.not_eq_true', decide_eq_false_iff_not]
  intro hc
  exact h (hc ▸ ha)

/-- The toggled-away topic is gone from the filtered selection. -/
theorem not_mem_filter_ne (l : List String) (t : String) :
    t ∉ l.filter (fun x => x ≠ t) := by
  intro h
  have := (List.mem_filter.mp h).2
  simp at this

/-- **C4** (amended): applying the toggle operation for `t` twice returns
`selectedTopics` to its original membership (every string is selected
afterwards exactly when it was before); the original sequence — hence the
original order — is restored exactly when `t` was not previously selected,
while for a previously selected `t` the result is the original selection
with `t` moved to the end. -/
theorem C4_toggle_twice (prev : List String) (t : String) :
    (∀ x, x ∈ toggleTopic (toggleTopic prev t) t ↔ x ∈ prev) ∧
    (t ∉ prev → toggleTopic (toggleTopic prev t) t = prev) ∧
    (t ∈ prev →
      toggleTopic (toggleTopic prev t) t =
        prev.filter (fun x => x ≠ t) ++ [t]) := by
  by_cases hmem : t ∈ prev
  · have hc : prev.contains t = true := (contains_iff prev t).mpr hmem
    have h1 : toggleTopic prev t = prev.filter (fun x => x ≠ t) := by
      unfold toggleTopic
      rw [if_pos hc]
    have hc2 : (prev.filter (fun x => x ≠ t)).contains t = false := by
      rw [Bool.eq_false_iff]
      intro habs
      exact not_mem_filter_ne prev t ((contains_iff _ t).mp habs)
    have h2 : toggleTopic (toggleTopic prev t) t =
        prev.filter (fun x => x ≠ t) ++ [t] := by
      rw [h1]
      unfold toggleTopic
      rw [hc2]
      simp
    refine ⟨?_, fun habs => absurd hmem habs, fun _ => h2⟩
    intro x
    rw [h2, List.mem_append, List.mem_filter, List.mem_singleton]
    constructor
    · rintro (⟨hx, _⟩ | hx)
      · exact hx
      · exact hx ▸ hmem
    · intro hx
      by_cases hxt : x = t
      · exact Or.inr hxt
      · exact Or.inl ⟨hx, by simp [hxt]⟩
  · have hc : prev.contains t = false := by
      rw [Bool.eq_false_iff]
      intro habs
      exact hmem ((contains_iff prev t).mp habs)
    have h1 : toggleTopic prev t = prev ++ [t] := by
      unfold toggleTopic
      rw [hc]
      simp
    have hc2 : (prev ++ [t]).contains t = true := by
      rw [contains_iff, List.mem_append]
      exact Or.inr (List.mem_singleton_self t)
    have h2 : toggleTopic (toggleTopic prev t) t = prev := by
      rw [h1]
      unfold toggleTopic
      rw [if_pos hc2, List.filter_append, filter_ne_of_not_mem prev t hmem]
      simp
    exact ⟨fun x => by rw [h2], fun _ => h2, fun habs => absurd habs hmem⟩

/-- **C4** witness: both amended cases at concrete inputs — toggling an
unselected topic twice restores the selection; toggling the selected head
twice moves it to the end. -/
theorem C4_toggle_twice_witness :
    toggleTopic (toggleTopic ["a"] "b") "b" = ["a"] ∧
    toggleTopic (toggleTopic ["a", "b"] "a") "a" =
      (["a", "b"].filter (fun x => x ≠ "a")) ++ ["a"] :=
  ⟨(C4_toggle_twice ["a"] "b").2.1 (by decide),
   (C4_toggle_twice ["a", "b"] "a").2.2 (by decide)⟩

/-! ## Claim C5 -/

/-- **C5** counterexample: the topics parameter `",Databases"` parses to
`["", "Databases"]`; under AND semantics the empty segment excludes every
article, so the filtered result is empty and the not-found effect fires,
whereas the same selection with the empty segment removed returns the
matching article and triggers no navigation — the empty segment is not
inert. -/
theorem C5_counterexample :
    splitComma ",Databases" = ["", "Databases"] ∧
    filteredArticles [exDb] (splitComma ",Databases") = [] ∧
    filteredArticles [exDb]
      ((splitComma ",Databases").filter (fun t => t ≠ "")) = [exDb] ∧
    notFoundEffectPushes [exDb]
      { selectedTopics := splitComma ",Databases", visibleCount := 10,
        visibleTopicsCount := 10, initDone := true } = 1 ∧
    notFoundEffectPushes [exDb]
      { selectedTopics := (splitComma ",Databases").filter (fun t => t ≠ ""),
        visibleCount := 10, visibleTopicsCount := 10, initDone := true } = 0 := by
  refine ⟨by decide, by decide, by decide, by decide, by decide⟩

/-- **C5** (amended): empty-string segments produced by a malformed topics
parameter are not inert: because every selected topic must be present in an
article's topic set, any empty segment — which no real topic equals — makes
the topic-filtered result empty, and on a non-empty source collection with
initialization complete the not-found navigation fires; so the result does
not in general equal the result for the selection with empty segments
removed. -/
theorem C5_empty_segment_filters_all (articles : List Article)
    (S : List String) (h1 : "" ∈ S)
    (h2 : ∀ a ∈ articles, "" ∉ a.topics) :
    filteredArticles articles S = [] ∧
    (articles ≠ [] →
      notFoundEffectPushes articles
        { selectedTopics := S, visibleCount := 10, visibleTopicsCount := 10,
          initDone := true } = 1) := by
  have hfil : filteredArticles articles S = [] := by
    unfold filteredArticles
    have hlen : ¬ S.length = 0 := by
      intro habs
      rw [List.length_eq_zero] at habs
      rw [habs] at h1
      exact (List.not_mem_nil "") h1
    rw [if_neg hlen, List.filter_eq_nil_iff]
    intro a ha
    simp only [Bool.not_eq_true, List.all_eq_true, not_forall]
    refine ⟨"", h1, ?_⟩
    rw [Bool.eq_false_iff]
    intro habs
    exact h2 a ha ((contains_iff _ "").mp habs)
  refine ⟨hfil, fun hne => ?_⟩
  unfold notFoundEffectPushes
  rw [if_pos]
  refine ⟨rfl, ?_, ?_⟩
  · cases articles with
    | nil => exact absurd rfl hne
    | cons a rest => exact Nat.succ_pos _
  · show (filteredArticles articles S).length = 0
    rw [hfil]
    rfl

/-- **C5** witness: the amended statement at the concrete parse of
`",Databases"` against a one-article collection. -/
theorem C5_empty_segment_filters_all_witness :
    filteredArticles [exDb] ["", "Databases"] = [] ∧
    ([exDb] ≠ ([] : List Article) →
      notFoundEffectPushes [exDb]
        { selectedTopics := ["", "Databases"], visibleCount := 10,
          visibleTopicsCount := 10, initDone := true } = 1) :=
  C5_empty_segment_filters_all [exDb] ["", "Databases"] (by decide) (by decide)

/-! ## Claim C6 -/

/-- **C6** counterexample: from a settled state whose filtered collection is
`[exRust]` out of `[exRust, exOnnx]`, the clear action (`setSearchTerm("")`
plus its effect) leaves the filtered collection at `[exRust]` — not the full
collection — and schedules the debounced task with the full 300ms delay, so
the empty-query result is not applied without waiting for the debounce. -/
theorem C6_counterexample :
    searchInput
        { searchTerm := "rust", filtered := [exRust], pending := none } "" =
      { searchTerm := "", filtered := [exRust],
        pending := some ("", 300) } ∧
    [exRust] ≠ [exRust, exOnnx] := by
  refine ⟨rfl, by decide⟩

/-- **C6** (amended): the clear action immediately empties only the raw
term; the filtered collection handed to the list is unchanged by the clear
itself, a debounced task carrying the empty query is pending with the full
300ms delay, and only when that task fires is the full collection
restored. -/
theorem C6_clear_goes_through_debounce (articles : List Article)
    (s : DebounceState) :
    (searchInput s "").searchTerm = "" ∧
    (searchInput s "").filtered = s.filtered ∧
    (searchInput s "").pending = some ("", debounceDelay) ∧
    (debounceFire articles (searchInput s "")).filtered = articles :=
  ⟨rfl, rfl, rfl, rfl⟩

/-! ## Claim C7 -/

/-- **C7** counterexample: at the spec's mount scenario
`?search=onnx&topics=AI,Databases` the search controller issues two location
replace-writes during the mount tick and the topics controller one; even
with no query parameters at all the search controller issues one — the
mount read does trigger location write-backs. -/
theorem C7_counterexample :
    (homePageMount [exRust, exOnnx] (some "onnx")).2 = 2 ∧
    (articlesListMount [exRust, exOnnx] (some "AI,Databases")).2.1 = 1 ∧
    (homePageMount [exRust, exOnnx] none).2 = 1 := by
  refine ⟨by decide, by decide, by decide⟩

/-- **C7** (amended): the initial reads themselves are correct — after the
mount sequence the raw term equals the location's `search` parameter
(absence ⇒ empty) and the selection equals the comma-split `topics`
parameter — but mount does issue location writes: the search controller's
sync effect runs unconditionally and performs one replace-write when the
parameter is absent or empty and two when it is non-empty, and the topics
controller's sync effect, silent on the pre-initialization render, performs
exactly one replace-write once initialization completes. -/
theorem C7_mount_writes (articles : List Article)
    (searchParam topicsParam : Option String) :
    (homePageMount articles searchParam).1.searchTerm = searchParam.getD "" ∧
    (articlesListMount articles topicsParam).1.selectedTopics =
      (match topicsParam with
       | some p => if p = "" then [] else splitComma p
       | none => []) ∧
    (homePageMount articles searchParam).2 =
      (if searchParam.getD "" = "" then 1 else 2) ∧
    (articlesListMount articles topicsParam).2.1 = 1 ∧
    syncEffectWrites initialListState = 0 := by
  have hinit : initEffect topicsParam initialListState ≠ initialListState := by
    intro habs
    have : (initEffect topicsParam initialListState).initDone = false := by
      rw [habs]
      rfl
    revert this
    unfold initEffect initialListState
    simp only [Bool.false_eq_true, if_false]
    cases topicsParam with
    | none => simp
    | some p =>
      by_cases hp : p = ""
      · simp [hp]
      · simp [hp]
  have hmount : articlesListMount articles topicsParam =
      (initEffect topicsParam initialListState, 0 + 1,
        0 + notFoundEffectPushes articles
              (initEffect topicsParam initialListState)) := by
    unfold articlesListMount
    rw [if_neg hinit]
    rfl
  refine ⟨?_, ?_, ?_, ?_, rfl⟩
  · unfold homePageMount
    by_cases h : searchParam.getD "" = ""
    · rw [if_pos h]
      exact h.symm
    · rw [if_neg h]
  · rw [hmount]
    unfold initEffect initialListState
    simp only [Bool.false_eq_true, if_false]
    cases topicsParam with
    | none => rfl
    | some p =>
      by_cases hp : p = ""
      · simp [hp]
      · simp [hp]
  · unfold homePageMount
    by_cases h : searchParam.getD "" = ""
    · rw [if_pos h, if_pos h]
    · rw [if_neg h, if_neg h]
  · rw [hmount]

/-! ## Claim C8 -/

/-- The user actions that mutate `selectedTopics` after initialization:
`toggleTopic` (lines 78–87) and `clearSelection` (lines 89–92, which passes
`[]` to `updateURL` and hence to `setSelectedTopics`). -/
inductive TopicAction where
  | toggle (t : String)
  | clearSel
  deriving DecidableEq, Repr

/-- One action applied to the current selection. -/
def applyAction (sel : List String) : TopicAction → List String
  | TopicAction.toggle t => toggleTopic sel t
  | TopicAction.clearSel => []

/-- A sequence of toggle/clear actions applied in order. -/
def applyActions (sel : List String) (acts : List TopicAction) : List String :=
  acts.foldl applyAction sel

/-- A single toggle preserves freedom from duplicates. -/
theorem toggleTopic_nodup (sel : List String) (t : String)
    (h : sel.Nodup) : (toggleTopic sel t).Nodup := by
  unfold toggleTopic
  split
  · exact h.filter _
  · rename_i hc
    rw [List.nodup_append]
    refine ⟨h, List.nodup_singleton t, ?_⟩
    intro x hx hx2
    rw [List.mem_singleton] at hx2
    subst hx2
    exact hc ((contains_iff sel x).mpr hx)

/-- **C8** counterexample: initialization from the location's topics query
parameter does not enforce the no-duplicates invariant — mounting with
`topics=AI,AI` leaves `selectedTopics = ["AI", "AI"]`, which contains a
duplicate. -/
theorem C8_counterexample :
    (articlesListMount [] (some "AI,AI")).1.selectedTopics = ["AI", "AI"] ∧
    ¬ (articlesListMount [] (some "AI,AI")).1.selectedTopics.Nodup := by
  refine ⟨by decide, by decide⟩

/-- **C8** (amended): `selectedTopics` contains no duplicates at every state
reachable from a duplicate-free selection (in particular from the empty
initial selection) by any sequence of toggle and clear actions; the
initialization from the `topics` query parameter, however, adopts the
comma-separated segments verbatim and can therefore introduce
duplicates. -/
theorem C8_nodup_under_actions (sel : List String) (acts : List TopicAction)
    (h : sel.Nodup) : (applyActions sel acts).Nodup := by
  induction acts generalizing sel with
  | nil => exact h
  | cons a rest ih =>
    cases a with
    | toggle t => exact ih (toggleTopic sel t) (toggleTopic_nodup sel t h)
    | clearSel => exact ih [] List.nodup_nil

/-- **C8** witness: a concrete action sequence from the empty selection
yields a duplicate-free selection. -/
theorem C8_nodup_under_actions_witness :
    (applyActions []
      [TopicAction.toggle "AI", TopicAction.toggle "Databases",
       TopicAction.toggle "AI"]).Nodup :=
  C8_nodup_under_actions []
    [TopicAction.toggle "AI", TopicAction.toggle "Databases",
     TopicAction.toggle "AI"] List.nodup_nil

/-! ## Claim C9 -/

/-- **C9**: every currently selected topic is a member of `topicsToShow`
(the first `visibleTopicsCount` entries of the sorted topic universe
followed by the selected topics outside that prefix), so each selected
topic always has a rendered toggle button — one button is rendered per
`topicsToShow` entry — even when it lies beyond the revealed prefix. -/
theorem C9_selected_topics_rendered (articles : List Article)
    (selectedTopics : List String) (visibleTopicsCount : Nat) (t : String)
    (h : t ∈ selectedTopics) :
    t ∈ topicsToShow articles selectedTopics visibleTopicsCount := by
  unfold topicsToShow
  rw [List.mem_append]
  by_cases hd : (displayedTopics articles visibleTopicsCount).contains t
  · exact Or.inl ((contains_iff _ t).mp hd)
  · refine Or.inr ?_
    unfold extraTopics
    rw [List.mem_filter]
    refine ⟨h, ?_⟩
    simp only [hd, decide_not]
    decide

/-- **C9** witness: with a two-article universe revealing only one topic,
the selected topic `"Rust"` outside the revealed prefix is still among the
rendered topic buttons. -/
theorem C9_selected_topics_rendered_witness :
    "Rust" ∈ topicsToShow [exDb, exAI] ["Rust"] 1 :=
  C9_selected_topics_rendered [exDb, exAI] ["Rust"] 1 "Rust" (by decide)

/-! ## Claim C10 -/

/-- **C10**: for every article collection and every `search` query
parameter — including a non-empty one — the state handed to the article
list immediately after the mount sequence still carries the full input
collection, because the mount read only sets the raw term and filtering
happens solely in the debounced task; the search filter is first applied
when that task fires. -/
theorem C10_full_collection_until_debounce (articles : List Article)
    (searchParam : Option String) :
    (homePageMount articles searchParam).1.filtered = articles ∧
    (debounceFire articles (homePageMount articles searchParam).1).filtered =
      handleSearchFilter articles (searchParam.getD "") := by
  unfold homePageMount
  by_cases h : searchParam.getD "" = ""
  · rw [if_pos h]
    refine ⟨rfl, ?_⟩
    show handleSearchFilter articles "" = handleSearchFilter articles (searchParam.getD "")
    rw [h]
  · rw [if_neg h]
    exact ⟨rfl, rfl⟩

end DevVerse
